import Mathlib

/-!
Verification of the TimeLine-WorldHistory front-end data layer.

The program is JavaScript; we shallowly embed the relevant functions as
executable Lean definitions. JavaScript numbers used as sample values,
timestamps and coordinates are modelled as `Int` or `ℚ`; possibly absent
values as `Option`; thrown exceptions as `Except` results. Each embedded
definition is named after the source function it models.
-/

namespace TimelineWH

/-- JavaScript `v || d` on an optional number: `undefined`, `null` and `0`
are falsy and select the default. -/
def jsOrNat (v : Option Nat) (d : Nat) : Nat :=
  match v with
  | some n => if n = 0 then d else n
  | none => d

/-- JavaScript `v || d` on an optional string: `undefined`, `null` and the
empty string are falsy and select the default. -/
def jsOrStr (v : Option String) (d : String) : String :=
  match v with
  | some s => if s = "" then d else s
  | none => d

/-! ## The API layer (`src/utils/api.js`, embedded from the source)

`fetchWithRetry`, `handleApiResponse` and `fetchApiData`. A `fetch` attempt
is modelled by its observable outcome: either the promise rejects with an
error message, or it resolves to a response. A response carries its HTTP
status, the result of `response.json()` (which can itself reject), the
`data.detail?.retry_after` field of its parsed body (read only on a 429
whose body parsed), and the `X-Request-ID` and `X-Response-Time`
headers. -/

/-- Error object of a parsed `success = false` API body. -/
structure ErrInfo where
  type : String
  message : String
  code : Option String
  details : String
  retry_after : Option Nat
  deriving Repr, DecidableEq

/-- Parsed JSON body of an API response. The payload is kept abstract as a
string. -/
structure ApiBody where
  success : Bool
  error : ErrInfo
  data : String
  deriving Repr, DecidableEq

instance {α β : Type} [DecidableEq α] [DecidableEq β] : DecidableEq (Except α β) :=
  fun a b =>
    match a, b with
    | Except.error x, Except.error y => decidable_of_iff (x = y) (by simp)
    | Except.error _, Except.ok _ => isFalse (by simp)
    | Except.ok _, Except.error _ => isFalse (by simp)
    | Except.ok x, Except.ok y => decidable_of_iff (x = y) (by simp)

/-- Observable content of a `fetch` response. -/
structure Response where
  status : Nat
  retryAfterField : Option Nat
  jsonResult : Except String ApiBody
  headerRequestId : Option String
  headerResponseTime : Option String
  deriving Repr, DecidableEq

/-- Outcome of one `fetch` call: the promise rejects with an error, or
resolves to a response. -/
inductive Outcome where
  | throws (msg : String)
  | responds (r : Response)
  deriving Repr, DecidableEq

/-- Result of running the `fetchWithRetry` loop: the value of the promise
(an error when it rejects, otherwise the returned response or `none` when
the loop falls off the end and the function returns `undefined`), the
sequence of `sleep` durations in ms, and the number of `fetch` calls
made. -/
structure FwrResult where
  result : Except String (Option Response)
  sleeps : List Nat
  fetchCount : Nat
  deriving Repr, DecidableEq

/-- The `fetchWithRetry` loop from iteration `i` on, for a given schedule
of attempt outcomes. Mirrors the JS loop body: on a 429 response the
`await response.json()` inside the try block either yields the body -
then the loop sleeps `data.detail?.retry_after || 2^i * 1000` ms and
continues - or rejects, and that rejection falls into the catch block
exactly like a fetch rejection; any other response is returned without
reading its body; a rejection reaching the catch on the last iteration is
rethrown, and otherwise sleeps `2^i * 1000` ms and continues. -/
def fwrFrom (attempts : Nat → Outcome) (retries i : Nat) : FwrResult :=
  if _h : i < retries then
    match attempts i with
    | Outcome.responds r =>
      if r.status = 429 then
        match r.jsonResult with
        | Except.ok _body =>
          let ra := jsOrNat r.retryAfterField (2 ^ i * 1000)
          let rest := fwrFrom attempts retries (i + 1)
          ⟨rest.result, ra :: rest.sleeps, rest.fetchCount + 1⟩
        | Except.error msg =>
          if i = retries - 1 then
            ⟨Except.error msg, [], 1⟩
          else
            let rest := fwrFrom attempts retries (i + 1)
            ⟨rest.result, (2 ^ i * 1000) :: rest.sleeps, rest.fetchCount + 1⟩
      else
        ⟨Except.ok (some r), [], 1⟩
    | Outcome.throws msg =>
      if i = retries - 1 then
        ⟨Except.error msg, [], 1⟩
      else
        let rest := fwrFrom attempts retries (i + 1)
        ⟨rest.result, (2 ^ i * 1000) :: rest.sleeps, rest.fetchCount + 1⟩
  else
    ⟨Except.ok none, [], 0⟩
termination_by retries - i
decreasing_by all_goals omega

/-- `fetchWithRetry(url, options, retries)`: run the loop from `i = 0`. -/
def fetchWithRetry (attempts : Nat → Outcome) (retries : Nat := 3) : FwrResult :=
  fwrFrom attempts retries 0

/-- The `ApiError` class: message plus the fields copied from the error
object, and the request id passed to the constructor. -/
structure ApiError where
  message : String
  type : String
  code : Option String
  details : String
  retryAfter : Option Nat
  requestId : Option String
  deriving Repr, DecidableEq

/-- `new ApiError(error, requestId)`. -/
def mkApiError (e : ErrInfo) (rid : Option String) : ApiError :=
  { message := e.message, type := e.type, code := e.code,
    details := e.details, retryAfter := e.retry_after, requestId := rid }

/-- Errors escaping `handleApiResponse`: a thrown `ApiError` for a
`success = false` body, or a plain error (a failed `response.json()`). -/
inductive HErr where
  | api (e : ApiError)
  | plain (msg : String)
  deriving Repr, DecidableEq

/-- `handleApiResponse(response)`: parse the body, read the `X-Request-ID`
header, throw an `ApiError` built from the error object when
`data.success` is false, otherwise return the payload and request id. -/
def handleApiResponse (r : Response) : Except HErr (String × Option String) :=
  match r.jsonResult with
  | Except.error msg => Except.error (HErr.plain msg)
  | Except.ok body =>
    if body.success then
      Except.ok (body.data, r.headerRequestId)
    else
      Except.error (HErr.api (mkApiError body.error r.headerRequestId))

/-- Message of the `TypeError` raised by `response.json()` when
`fetchWithRetry` resolved to `undefined`. -/
def undefinedJsonMsg : String :=
  "Cannot read properties of undefined (reading json)"

/-- The `ApiError` built by `fetchApiData` out of a non-`ApiError` failure:
`{ type: CLIENT_ERROR, message: error.message, details: { originalError:
error.toString() } }`, with no request id passed to the constructor. -/
def clientApiError (msg : String) : ApiError :=
  { message := msg, type := "CLIENT_ERROR", code := none,
    details := "Error: " ++ msg, retryAfter := none, requestId := none }

/-- Successful result of `fetchApiData`. -/
structure FetchOk where
  data : String
  requestId : String
  responseTime : Option String
  deriving Repr, DecidableEq

/-- `fetchApiData(endpoint, options)` downstream of the network: `stage1`
is the settled value of `timeout(fetchWithRetry(...), config.apiTimeout)`
(`Except.error` when that promise rejected - a timeout, a network error
rethrown by the last retry - and otherwise the response or `none` when the
retry loop returned `undefined`). Reading `.json()` off `undefined` throws
a `TypeError`. The catch block rethrows `ApiError`s and wraps every other
error as a CLIENT_ERROR `ApiError` keeping its message. -/
def fetchApiData (clientRequestId : String)
    (stage1 : Except String (Option Response)) : Except ApiError FetchOk :=
  match stage1 with
  | Except.error msg => Except.error (clientApiError msg)
  | Except.ok none => Except.error (clientApiError undefinedJsonMsg)
  | Except.ok (some r) =>
    match handleApiResponse r with
    | Except.error (HErr.api e) => Except.error e
    | Except.error (HErr.plain msg) => Except.error (clientApiError msg)
    | Except.ok (d, serverRequestId) =>
      Except.ok { data := d, requestId := jsOrStr serverRequestId clientRequestId,
                  responseTime := r.headerResponseTime }

/-! ## The data loader built on the API layer (`src/utils/dataLoader.js`)

`parseDate`, `transformEvent` and `loadInitialData`. `new Date(s)` parsing
of an arbitrary string is a host primitive; it is passed in as an oracle
`newDate : String → Option Int` returning the timestamp, or `none` for an
Invalid Date. -/

/-- Raw event as fetched from the API or the mock files. -/
structure RawEvent where
  id : String
  titleZh : String
  titleEn : String
  dateStart : String
  dateEnd : String
  locCoordinates : ℚ × ℚ
  locZoomLevel : Int
  locHighlightColor : Option String
  contentRefsArticles : Option (List String)
  mediaImages : Option (List String)
  deriving Repr, DecidableEq

/-- Event shape produced by `transformEvent`. -/
structure TEvent where
  id : String
  title : String
  startDate : Option Int
  endDate : Option Int
  locCoordinates : ℚ × ℚ
  locZoomLevel : Int
  locHighlightColor : String
  contentRefsArticles : List String
  contentRefsImages : List String
  deriving Repr, DecidableEq

/-- `parseDate(dateStr)` of the data loader: `null` for a falsy input,
otherwise `new Date(dateStr)`, with `null` again for an Invalid Date. -/
def parseDate (newDate : String → Option Int) (dateStr : String) : Option Int :=
  if dateStr = "" then none else newDate dateStr

/-- `transformEvent(event)`. -/
def transformEvent (newDate : String → Option Int) (e : RawEvent) : TEvent :=
  { id := e.id
    title := jsOrStr (some e.titleZh) e.titleEn
    startDate := parseDate newDate e.dateStart
    endDate := parseDate newDate e.dateEnd
    locCoordinates := e.locCoordinates
    locZoomLevel := e.locZoomLevel
    locHighlightColor := jsOrStr e.locHighlightColor "#FF0000"
    contentRefsArticles := e.contentRefsArticles.getD []
    contentRefsImages := e.mediaImages.getD [] }

/-- The three payloads fetched by `loadInitialData` (events plus the
periods and regions payloads, the latter two kept abstract). -/
structure FetchedData where
  events : List RawEvent
  periods : String
  regions : String
  deriving Repr, DecidableEq

/-- Resolved value of `loadInitialData`. -/
structure InitialData where
  events : List TEvent
  periods : String
  regions : String
  deriving Repr, DecidableEq

/-- `loadInitialData(zoomLevel, page, pageSize)` after the three fetches
settled: filter events on the zoom level and map `transformEvent`, pass
periods and regions through. -/
def loadInitialData (newDate : String → Option Int) (fetched : FetchedData)
    (zoomLevel : Int) : InitialData :=
  { events := (fetched.events.filter
      (fun e => zoomLevel = 0 || e.locZoomLevel ≤ zoomLevel)).map (transformEvent newDate)
    periods := fetched.periods
    regions := fetched.regions }

/-! ## The mock data loader (`src/utils/DataLoader.js`)

Its `parseDate` helper reads BCE dates from fixed character positions with
`substring` and `parseInt`, both embedded below. -/

/-- JS `s.substring(a, b)`: both indices clamped to `[0, length]` and
swapped when out of order, then the characters in between. -/
def jsSubstring (s : String) (a b : Nat) : String :=
  let a2 := min a s.length
  let b2 := min b s.length
  let lo := min a2 b2
  let hi := max a2 b2
  String.mk ((s.data.drop lo).take (hi - lo))

/-- Value of a list of decimal digit characters. -/
def digitsVal (cs : List Char) : Nat :=
  cs.foldl (fun acc c => acc * 10 + (c.toNat - 48)) 0

/-- `parseInt` after the optional sign: the longest prefix of decimal
digits, `NaN` (modelled `none`) when it is empty. -/
def jsParseIntCore (cs : List Char) (sign : Int) : Option Int :=
  let ds := cs.takeWhile Char.isDigit
  if ds = [] then none else some (sign * digitsVal ds)

/-- JS `parseInt(s)` for radix 10 (the inputs carry no leading
whitespace): an optional sign followed by leading digits, `NaN` when no
digit follows. -/
def jsParseInt (s : String) : Option Int :=
  match s.data with
  | [] => none
  | c :: rest =>
    if c = '-' then jsParseIntCore rest (-1)
    else if c = '+' then jsParseIntCore rest 1
    else jsParseIntCore (c :: rest) 1

/-- Arguments handed to `new Date(year, month, day)`; a component is
`none` when the corresponding `parseInt` produced `NaN`. -/
structure JsDateArgs where
  year : Option Int
  month : Option Int
  day : Option Int
  deriving Repr, DecidableEq

/-- Value returned by the mock loader `parseDate`: either
`new Date(-year, month, day)` from the three parsed components, or
`new Date(dateStr)` for a non-BCE string. -/
inductive MockParsedDate where
  | fromYmd (args : JsDateArgs)
  | fromString (s : String)
  deriving Repr, DecidableEq

/-- JS `s.startsWith("-")`: the first character is a minus. -/
def jsStartsWithDash (s : String) : Bool :=
  match s.data with
  | c :: _ => c = '-'
  | [] => false

namespace MockLoader

/-- `parseDate(dateStr)` of `src/utils/DataLoader.js`: for a string
starting with a minus, `new Date(-parseInt(s.substring(1,5)),
parseInt(s.substring(6,8)) - 1, parseInt(s.substring(9,11)))`, otherwise
`new Date(dateStr)`. -/
def parseDate (dateStr : String) : MockParsedDate :=
  if jsStartsWithDash dateStr then
    MockParsedDate.fromYmd
      { year := (jsParseInt (jsSubstring dateStr 1 5)).map (fun y => -y)
        month := (jsParseInt (jsSubstring dateStr 6 8)).map (fun m => m - 1)
        day := jsParseInt (jsSubstring dateStr 9 11) }
  else
    MockParsedDate.fromString dateStr

end MockLoader

/-! ## The client performance monitor (`src/utils/performanceMonitor.js`) -/

/-- Per-endpoint metric record. -/
structure Metric where
  calls : Nat
  totalDuration : Int
  errors : Nat
  durations : List Int
  deriving Repr, DecidableEq

/-- The fresh record used when an endpoint has no entry yet. -/
def emptyMetric : Metric :=
  { calls := 0, totalDuration := 0, errors := 0, durations := [] }

/-- `recordApiCall`: push the duration, count the call and the error, then
drop the oldest sample while more than 100 are stored. -/
def recordApiCall (m : Metric) (duration : Int) (isError : Bool) : Metric :=
  let pushed := m.durations ++ [duration]
  { calls := m.calls + 1
    totalDuration := m.totalDuration + duration
    errors := m.errors + (if isError then 1 else 0)
    durations := if 100 < pushed.length then pushed.drop 1 else pushed }

/-- `recordMetric(name, value)`: same sample bookkeeping without the error
counter. -/
def recordMetric (m : Metric) (value : Int) : Metric :=
  let pushed := m.durations ++ [value]
  { calls := m.calls + 1
    totalDuration := m.totalDuration + value
    errors := m.errors
    durations := if 100 < pushed.length then pushed.drop 1 else pushed }

/-! ## The globe scene (`src/components/Earth3D.js`)

Dates are compared through their timestamps, modelled as `Int`. A marker
is identified with the event it was built from; the children of the earth
mesh that are event markers form a multiset, and `markersRef` is the list
the component keeps of the markers it added. -/

/-- Event as the component receives it. -/
structure E3Event where
  id : String
  locZoomLevel : Int
  startDate : Int
  endDate : Int
  deriving Repr, DecidableEq

/-- The cached `visibleEvents` of the effect: empty unless the zoom level
is positive, otherwise the events of visible zoom whose date range
contains the current date. -/
def visibleEvents (events : List E3Event) (zoomLevel : Int) (currentDate : Int) :
    List E3Event :=
  if 0 < zoomLevel then
    events.filter (fun e =>
      decide (e.locZoomLevel ≤ zoomLevel ∧
        e.startDate ≤ currentDate ∧ currentDate ≤ e.endDate))
  else []

/-- Marker bookkeeping: the event markers among the children of the earth
mesh, and the component ref of added markers. -/
structure MarkerState where
  earthMarkers : Multiset E3Event
  markersRef : List E3Event

/-- `updateMarkers()`: remove every marker in the ref from the earth mesh,
then add a marker per visible event and store the new list in the ref. -/
def updateMarkers (vis : List E3Event) (s : MarkerState) : MarkerState :=
  let afterRemove := s.markersRef.foldl (fun m e => m.erase e) s.earthMarkers
  { earthMarkers := afterRemove + (vis : Multiset E3Event), markersRef := vis }

/-- The per-frame state the animation loop mutates. -/
structure E3State where
  rotationY : ℚ
  markers : MarkerState

/-- One iteration of `animate`: the earth rotation grows by
`rotationSpeed * 0.001`, and the markers are refreshed when the throttle
threshold has elapsed. -/
def animFrame (rotationSpeed : ℚ) (doMarkerUpdate : Bool) (vis : List E3Event)
    (s : E3State) : E3State :=
  { rotationY := s.rotationY + rotationSpeed * (1 / 1000)
    markers := if doMarkerUpdate then updateMarkers vis s.markers else s.markers }

/-! ## The admin event form (`src/components/Admin/EventForm.js`)

The date fields hold strings of a date input: empty, or `YYYY-MM-DD`.
`new Date` on such a string is embedded concretely: a well-formed
`YYYY-MM-DD` string parses to its year, month and day, anything else is an
Invalid Date (`none`). An Invalid Date compares `false` under `<`, and
`toISOString` throws on it. -/

/-- Gregorian leap year, as used by the host date parser. -/
def isLeapYear (y : Nat) : Bool :=
  (y % 4 = 0 && y % 100 ≠ 0) || y % 400 = 0

/-- Number of days of a month, leap years included. -/
def daysInMonth (y m : Nat) : Nat :=
  if m = 2 then (if isLeapYear y then 29 else 28)
  else if m = 4 || m = 6 || m = 9 || m = 11 then 30
  else 31

/-- `new Date(s)` on a date-input string: the `(year, month, day)` triple
for a well-formed `YYYY-MM-DD` string whose month and day are in range
for that year, `none` (Invalid Date) otherwise - `new Date` rejects
out-of-range days such as `2020-04-31` or `2019-02-29`. -/
def parseIsoDate (s : String) : Option (Nat × Nat × Nat) :=
  match s.data with
  | [y1, y2, y3, y4, '-', m1, m2, '-', d1, d2] =>
    if y1.isDigit && y2.isDigit && y3.isDigit && y4.isDigit &&
       m1.isDigit && m2.isDigit && d1.isDigit && d2.isDigit then
      let y := (((y1.toNat - 48) * 10 + (y2.toNat - 48)) * 10 + (y3.toNat - 48)) * 10
                 + (y4.toNat - 48)
      let m := (m1.toNat - 48) * 10 + (m2.toNat - 48)
      let d := (d1.toNat - 48) * 10 + (d2.toNat - 48)
      if 1 ≤ m && m ≤ 12 && 1 ≤ d && d ≤ daysInMonth y m then some (y, m, d)
      else none
    else none
  | _ => none

/-- Timestamp surrogate, monotone in the calendar order of the triple. -/
def dateKey (t : Nat × Nat × Nat) : Nat :=
  t.1 * 10000 + t.2.1 * 100 + t.2.2

/-- JS `<` between two `Date` values: `false` whenever either side is an
Invalid Date (a `NaN` comparison). -/
def jsDateLt (a b : Option (Nat × Nat × Nat)) : Bool :=
  match a, b with
  | some x, some y => decide (dateKey x < dateKey y)
  | _, _ => false

/-- Left-pad a number with zeros. -/
def padNum (width n : Nat) : String :=
  String.mk (List.replicate (width - (toString n).length) '0') ++ toString n

/-- `toISOString()` of a date parsed from a `YYYY-MM-DD` string (the time
component is UTC midnight). -/
def toISOString (t : Nat × Nat × Nat) : String :=
  padNum 4 t.1 ++ "-" ++ padNum 2 t.2.1 ++ "-" ++ padNum 2 t.2.2 ++ "T00:00:00.000Z"

/-- The form data held by `EventForm`. -/
structure FormData where
  title : String
  period : String
  startDate : String
  endDate : String
  locCoordinates : List ℚ
  locZoomLevel : ℚ
  description : String
  deriving Repr, DecidableEq

/-- The `newErrors` object of `validate`: one optional message per
validated field. -/
structure FormErrors where
  title : Option String
  period : Option String
  startDate : Option String
  endDate : Option String
  deriving Repr, DecidableEq

/-- `t(admin.form.errors.required)`. -/
def requiredMsg : String := "admin.form.errors.required"

/-- `t(admin.form.errors.invalidDate)`. -/
def invalidDateMsg : String := "admin.form.errors.invalidDate"

/-- The `newErrors` object built by `validate`: a required message for
each empty field, then an invalid-date message on `endDate` when
`new Date(endDate) < new Date(startDate)`. -/
def validateErrors (fd : FormData) : FormErrors :=
  let e0 : FormErrors := ⟨none, none, none, none⟩
  let e1 := if fd.title = "" then { e0 with title := some requiredMsg } else e0
  let e2 := if fd.period = "" then { e1 with period := some requiredMsg } else e1
  let e3 := if fd.startDate = "" then { e2 with startDate := some requiredMsg } else e2
  let e4 := if fd.endDate = "" then { e3 with endDate := some requiredMsg } else e3
  if jsDateLt (parseIsoDate fd.endDate) (parseIsoDate fd.startDate) then
    { e4 with endDate := some invalidDateMsg }
  else e4

/-- Whether the error object has no keys. -/
def FormErrors.isEmpty (e : FormErrors) : Bool :=
  e.title.isNone && e.period.isNone && e.startDate.isNone && e.endDate.isNone

/-- `validate()`: build the errors and succeed when none were recorded. -/
def validate (fd : FormData) : Bool :=
  (validateErrors fd).isEmpty

/-- What `handleSubmit` does: call `onSubmit` with a payload, return
without calling it, or throw (a `RangeError` from `toISOString` on an
Invalid Date). -/
inductive SubmitResult where
  | submitted (payload : FormData)
  | notSubmitted
  | threw
  deriving Repr, DecidableEq

/-- `handleSubmit()`: when `validate()` passes, call `onSubmit` with the
form data and both dates replaced by their ISO strings; `toISOString`
throws when a date field did not parse. -/
def handleSubmit (fd : FormData) : SubmitResult :=
  if validate fd then
    match parseIsoDate fd.startDate, parseIsoDate fd.endDate with
    | some s, some e =>
      SubmitResult.submitted { fd with startDate := toISOString s, endDate := toISOString e }
    | _, _ => SubmitResult.threw
  else
    SubmitResult.notSubmitted

/-- Whether `onSubmit` was invoked. -/
def SubmitResult.isSubmitted : SubmitResult → Bool
  | SubmitResult.submitted _ => true
  | _ => false

/-! ## The timeline controller
(`src/components/Timeline/TimelineController.js`) -/

/-- The updater of `handleSpeedChange(multiplier)`:
`Math.min(Math.max(current * multiplier, 0.25), 16)`. -/
def handleSpeedChange (current multiplier : ℚ) : ℚ :=
  min (max (current * multiplier) (1 / 4)) 16

/-- The playback speed after a sequence of `handleSpeedChange` calls,
starting from the initial state value 1. -/
def playbackSpeedAfter (multipliers : List ℚ) : ℚ :=
  multipliers.foldl handleSpeedChange 1

/-! ## Theorems -/

/-- One `handleSpeedChange` update always lands in the interval. -/
lemma handleSpeedChange_bounds (c m : ℚ) :
    1 / 4 ≤ handleSpeedChange c m ∧ handleSpeedChange c m ≤ 16 := by
  unfold handleSpeedChange
  refine ⟨le_min (le_max_right _ _) (by norm_num), min_le_right _ _⟩

/-- The fold over any multiplier sequence stays in the interval when the
start does. -/
lemma foldl_handleSpeedChange_bounds (ms : List ℚ) :
    ∀ s : ℚ, 1 / 4 ≤ s → s ≤ 16 →
      1 / 4 ≤ ms.foldl handleSpeedChange s ∧ ms.foldl handleSpeedChange s ≤ 16 := by
  induction ms with
  | nil => intro s h1 h2; exact ⟨h1, h2⟩
  | cons a t ih =>
    intro s _ _
    simpa using ih (handleSpeedChange s a)
      (handleSpeedChange_bounds s a).1 (handleSpeedChange_bounds s a).2

/-- Claim C10: starting from the initial playback speed 1, after any
sequence of `handleSpeedChange` calls with multipliers 0.5 or 2, the
playback speed lies within `[0.25, 16]`. -/
theorem playbackSpeed_bounded (ms : List ℚ)
    (_h : ∀ m ∈ ms, m = 1 / 2 ∨ m = 2) :
    1 / 4 ≤ playbackSpeedAfter ms ∧ playbackSpeedAfter ms ≤ 16 :=
  foldl_handleSpeedChange_bounds ms 1 (by norm_num) (by norm_num)

/-- Witness for C10 at the concrete sequence `[2, 0.5, 2, 2, 2, 2, 2]`. -/
theorem playbackSpeed_bounded_witness :
    1 / 4 ≤ playbackSpeedAfter [2, 1 / 2, 2, 2, 2, 2, 2] ∧
      playbackSpeedAfter [2, 1 / 2, 2, 2, 2, 2, 2] ≤ 16 :=
  playbackSpeed_bounded [2, 1 / 2, 2, 2, 2, 2, 2]
    (by intro m hm; fin_cases hm <;> norm_num)

/-- Claim C7: each iteration of the animation loop adds exactly
`rotationSpeed * 0.001` to the earth rotation, and with a zero rotation
speed any number of frames leaves the rotation unchanged. -/
theorem animFrame_rotation (rotationSpeed : ℚ) (doMarkerUpdate : Bool)
    (vis : List E3Event) (s : E3State) :
    (animFrame rotationSpeed doMarkerUpdate vis s).rotationY
        = s.rotationY + rotationSpeed * (1 / 1000) ∧
    (∀ n : Nat,
      ((animFrame 0 doMarkerUpdate vis)^[n] s).rotationY = s.rotationY) := by
  constructor
  · rfl
  · intro n
    induction n with
    | zero => rfl
    | succ k ih =>
      rw [Function.iterate_succ_apply']
      simp [animFrame, ih]

/-- Metric holding 100 samples, the oldest being 7. -/
def fullMetric : Metric :=
  { calls := 100, totalDuration := 507, errors := 0,
    durations := 7 :: List.replicate 99 5 }

/-- Counterexample to claim C4: the metric holds its sample 7, and after
`recordMetric` pushes one more sample, 7 is gone. -/
theorem recordMetric_discards_sample :
    (7 : Int) ∈ fullMetric.durations ∧
      (7 : Int) ∉ (recordMetric fullMetric 3).durations := by decide

/-- Claim C4 (amended): a new sample preserves every previously recorded
duration only while fewer than 100 samples are stored; at 100 or more,
`recordMetric` and `recordApiCall` drop the oldest sample. -/
theorem record_keeps_recent_samples (m : Metric) (v d : Int) (isError : Bool) :
    (m.durations.length < 100 →
      (recordMetric m v).durations = m.durations ++ [v] ∧
      (recordApiCall m d isError).durations = m.durations ++ [d]) ∧
    (100 ≤ m.durations.length →
      (recordMetric m v).durations = (m.durations ++ [v]).drop 1 ∧
      (recordApiCall m d isError).durations = (m.durations ++ [d]).drop 1) := by
  constructor <;> intro h
  · constructor
    · show (if 100 < (m.durations ++ [v]).length then (m.durations ++ [v]).drop 1
            else m.durations ++ [v]) = m.durations ++ [v]
      rw [if_neg (by simp only [List.length_append, List.length_cons, List.length_nil]; omega)]
    · show (if 100 < (m.durations ++ [d]).length then (m.durations ++ [d]).drop 1
            else m.durations ++ [d]) = m.durations ++ [d]
      rw [if_neg (by simp only [List.length_append, List.length_cons, List.length_nil]; omega)]
  · constructor
    · show (if 100 < (m.durations ++ [v]).length then (m.durations ++ [v]).drop 1
            else m.durations ++ [v]) = (m.durations ++ [v]).drop 1
      rw [if_pos (by simp only [List.length_append, List.length_cons, List.length_nil]; omega)]
    · show (if 100 < (m.durations ++ [d]).length then (m.durations ++ [d]).drop 1
            else m.durations ++ [d]) = (m.durations ++ [d]).drop 1
      rw [if_pos (by simp only [List.length_append, List.length_cons, List.length_nil]; omega)]

/-- Witness for the amended C4 at a two-sample metric and at a
100-sample metric. -/
theorem record_keeps_recent_samples_witness :
    ((recordMetric { emptyMetric with durations := [1, 2] } 3).durations = [1, 2] ++ [3] ∧
      (recordApiCall { emptyMetric with durations := [1, 2] } 4 false).durations
        = [1, 2] ++ [4]) ∧
    ((recordMetric fullMetric 3).durations = (fullMetric.durations ++ [3]).drop 1 ∧
      (recordApiCall fullMetric 4 false).durations
        = (fullMetric.durations ++ [4]).drop 1) :=
  ⟨(record_keeps_recent_samples { emptyMetric with durations := [1, 2] } 3 4 false).1
      (by decide),
   (record_keeps_recent_samples fullMetric 3 4 false).2 (by decide)⟩

/-- Erasing, one by one, every element of the list a multiset came from
empties it. -/
lemma foldl_erase_coe {α : Type} [DecidableEq α] (l : List α) :
    l.foldl (fun acc e => acc.erase e) (l : Multiset α) = 0 := by
  induction l with
  | nil => rfl
  | cons a t ih =>
    have h : ((a :: t : List α) : Multiset α).erase a = (t : Multiset α) := by
      rw [← Multiset.cons_coe, Multiset.erase_cons_head]
    simpa [h] using ih

/-- Membership in `visibleEvents` is the zoom and date-window filter. -/
lemma mem_visibleEvents (events : List E3Event) (zoomLevel currentDate : Int)
    (e : E3Event) :
    e ∈ visibleEvents events zoomLevel currentDate ↔
      e ∈ events ∧ 0 < zoomLevel ∧ e.locZoomLevel ≤ zoomLevel ∧
        e.startDate ≤ currentDate ∧ currentDate ≤ e.endDate := by
  unfold visibleEvents
  by_cases hz : 0 < zoomLevel
  · simp [hz, List.mem_filter, and_assoc]
  · simp [hz]

/-- Claim C3: when the markers the component added are exactly the event
markers on the earth mesh, `updateMarkers` first removes every one of
them, so the markers present afterwards are exactly those of the events
with `zoomLevel > 0`, `e.location.zoomLevel <= zoomLevel` and a date range
containing the current date; the invariant is preserved. -/
theorem updateMarkers_spec (events : List E3Event) (zoomLevel currentDate : Int)
    (s : MarkerState)
    (hinv : s.earthMarkers = (s.markersRef : Multiset E3Event)) :
    (updateMarkers (visibleEvents events zoomLevel currentDate) s).earthMarkers
        = ((visibleEvents events zoomLevel currentDate : List E3Event) : Multiset E3Event)
    ∧ (updateMarkers (visibleEvents events zoomLevel currentDate) s).markersRef
        = visibleEvents events zoomLevel currentDate
    ∧ (∀ e : E3Event,
        e ∈ (updateMarkers (visibleEvents events zoomLevel currentDate) s).earthMarkers ↔
          e ∈ events ∧ 0 < zoomLevel ∧ e.locZoomLevel ≤ zoomLevel ∧
            e.startDate ≤ currentDate ∧ currentDate ≤ e.endDate) := by
  have hclear : (updateMarkers (visibleEvents events zoomLevel currentDate) s).earthMarkers
      = ((visibleEvents events zoomLevel currentDate : List E3Event) : Multiset E3Event) := by
    unfold updateMarkers
    rw [hinv]
    simp [foldl_erase_coe]
  refine ⟨hclear, rfl, fun e => ?_⟩
  rw [hclear, Multiset.mem_coe, mem_visibleEvents]

/-- A sample event for the C3 witness. -/
def sampleE3Event : E3Event :=
  { id := "e1", locZoomLevel := 1, startDate := 0, endDate := 10 }

/-- Witness for C3: a state carrying a stale marker, updated at zoom 2 and
date 5. -/
theorem updateMarkers_spec_witness :
    (updateMarkers (visibleEvents [sampleE3Event] 2 5)
        ⟨{sampleE3Event}, [sampleE3Event]⟩).earthMarkers
      = ((visibleEvents [sampleE3Event] 2 5 : List E3Event) : Multiset E3Event) ∧
    (updateMarkers (visibleEvents [sampleE3Event] 2 5)
        ⟨{sampleE3Event}, [sampleE3Event]⟩).markersRef
      = visibleEvents [sampleE3Event] 2 5 :=
  ⟨(updateMarkers_spec [sampleE3Event] 2 5 ⟨{sampleE3Event}, [sampleE3Event]⟩ (by rfl)).1,
   (updateMarkers_spec [sampleE3Event] 2 5 ⟨{sampleE3Event}, [sampleE3Event]⟩ (by rfl)).2.1⟩

/-- Claim C5: `loadInitialData` resolves to an object whose `periods` and
`regions` are the fetched payloads, and whose `events` are the
`transformEvent` images of exactly the fetched events passing the zoom
filter `zoomLevel === 0 || event.location.zoomLevel <= zoomLevel`. -/
theorem loadInitialData_spec (newDate : String → Option Int)
    (fetched : FetchedData) (zoomLevel : Int) :
    (loadInitialData newDate fetched zoomLevel).periods = fetched.periods ∧
    (loadInitialData newDate fetched zoomLevel).regions = fetched.regions ∧
    (∀ x : TEvent, x ∈ (loadInitialData newDate fetched zoomLevel).events ↔
      ∃ e : RawEvent, e ∈ fetched.events ∧
        (zoomLevel = 0 ∨ e.locZoomLevel ≤ zoomLevel) ∧
        x = transformEvent newDate e) := by
  refine ⟨rfl, rfl, fun x => ?_⟩
  unfold loadInitialData
  simp only [List.mem_map, List.mem_filter, Bool.or_eq_true, decide_eq_true_eq]
  constructor
  · rintro ⟨e, ⟨he, hc⟩, hx⟩
    exact ⟨e, he, hc, hx.symm⟩
  · rintro ⟨e, he, hc, hx⟩
    exact ⟨e, ⟨he, hc⟩, hx.symm⟩

/-- The loop from iteration `i` performs at most `retries - i` fetches. -/
lemma fwrFrom_count_le (attempts : Nat → Outcome) (retries : Nat) :
    ∀ k i, retries ≤ i + k → (fwrFrom attempts retries i).fetchCount ≤ k := by
  intro k
  induction k with
  | zero =>
    intro i h
    rw [fwrFrom, dif_neg (by omega)]
  | succ k ih =>
    intro i h
    rw [fwrFrom]
    by_cases hi : i < retries
    · rw [dif_pos hi]
      cases hA : attempts i with
      | responds r =>
        by_cases h429 : r.status = 429
        · cases hj : r.jsonResult with
          | ok body =>
            simp only [h429, if_pos, hj]
            have := ih (i + 1) (by omega)
            simpa using Nat.add_le_add_right this 1
          | error msg =>
            by_cases hl : i = retries - 1
            · simp only [h429, if_pos, hj, if_pos hl]
              omega
            · simp only [h429, if_pos, hj, if_neg hl]
              have := ih (i + 1) (by omega)
              simpa using Nat.add_le_add_right this 1
        · simp only [if_neg h429]
          omega
      | throws msg =>
        by_cases hl : i = retries - 1
        · simp only [if_pos hl]
          omega
        · simp only [if_neg hl]
          have := ih (i + 1) (by omega)
          simpa using Nat.add_le_add_right this 1
    · rw [dif_neg hi]
      simp

/-- Claim C1: `fetchWithRetry` makes at most `retries` fetch attempts; an
attempt that throws before the last iteration sleeps `2^i * 1000` ms and
retries; a throw on the last iteration propagates; a response with a
status other than 429 is returned at once, with no further sleep or
fetch. -/
theorem fetchWithRetry_spec (attempts : Nat → Outcome) (retries : Nat) :
    (fetchWithRetry attempts retries).fetchCount ≤ retries
    ∧ (∀ i msg, i + 1 < retries → attempts i = Outcome.throws msg →
        fwrFrom attempts retries i =
          ⟨(fwrFrom attempts retries (i + 1)).result,
           2 ^ i * 1000 :: (fwrFrom attempts retries (i + 1)).sleeps,
           (fwrFrom attempts retries (i + 1)).fetchCount + 1⟩)
    ∧ (∀ msg, 0 < retries → attempts (retries - 1) = Outcome.throws msg →
        fwrFrom attempts retries (retries - 1) = ⟨Except.error msg, [], 1⟩)
    ∧ (∀ i r, i < retries → attempts i = Outcome.responds r → r.status ≠ 429 →
        fwrFrom attempts retries i = ⟨Except.ok (some r), [], 1⟩) := by
  refine ⟨?_, ?_, ?_, ?_⟩
  · exact fwrFrom_count_le attempts retries retries 0 (by omega)
  · intro i msg hi hA
    rw [fwrFrom, dif_pos (show i < retries by omega), hA]
    simp [show ¬ (i = retries - 1) from by omega]
  · intro msg hr hA
    rw [fwrFrom, dif_pos (show retries - 1 < retries by omega), hA]
    simp
  · intro i r hi hA h429
    rw [fwrFrom, dif_pos hi, hA]
    simp [h429]

/-- A placeholder error object for successful bodies. -/
def noErrInfo : ErrInfo :=
  { type := "", message := "", code := none, details := "", retry_after := none }

/-- A successful body used by witnesses. -/
def okBody : ApiBody :=
  { success := true, error := noErrInfo, data := "payload" }

/-- A 200 response used by witnesses. -/
def okResponse : Response :=
  { status := 200, retryAfterField := none, jsonResult := Except.ok okBody,
    headerRequestId := some "srv-1", headerResponseTime := some "5ms" }

/-- Attempt schedule for the C1 witness: the first attempt throws, the
rest respond 200. -/
def wAttempts : Nat → Outcome := fun i =>
  if i = 0 then Outcome.throws "network down" else Outcome.responds okResponse

/-- Attempt schedule whose every attempt throws. -/
def wAttemptsThrow : Nat → Outcome := fun _ => Outcome.throws "network down"

/-- Witness for C1 with three retries: the early throw retries with a
1000 ms sleep, the 200 response of attempt 1 returns at once, a throw on
the last attempt propagates, and at most 3 fetches happen. -/
theorem fetchWithRetry_spec_witness :
    (fetchWithRetry wAttempts 3).fetchCount ≤ 3 ∧
    fwrFrom wAttempts 3 0 =
      ⟨(fwrFrom wAttempts 3 1).result,
       2 ^ 0 * 1000 :: (fwrFrom wAttempts 3 1).sleeps,
       (fwrFrom wAttempts 3 1).fetchCount + 1⟩ ∧
    fwrFrom wAttempts 3 1 = ⟨Except.ok (some okResponse), [], 1⟩ ∧
    fwrFrom wAttemptsThrow 3 2 = ⟨Except.error "network down", [], 1⟩ :=
  ⟨(fetchWithRetry_spec wAttempts 3).1,
   (fetchWithRetry_spec wAttempts 3).2.1 0 "network down" (by omega) rfl,
   (fetchWithRetry_spec wAttempts 3).2.2.2 1 okResponse (by omega) rfl (by decide),
   (fetchWithRetry_spec wAttemptsThrow 3).2.2.1 "network down" (by omega) rfl⟩

/-- When every remaining attempt is a 429 response with a parseable
body, the loop falls through and the promise resolves to `undefined`. -/
lemma fwrFrom_all429 (attempts : Nat → Outcome) (retries : Nat) :
    ∀ k i, retries ≤ i + k →
      (∀ j, i ≤ j → j < retries →
        ∃ (r : Response) (body : ApiBody), attempts j = Outcome.responds r ∧
          r.status = 429 ∧ r.jsonResult = Except.ok body) →
      (fwrFrom attempts retries i).result = Except.ok none := by
  intro k
  induction k with
  | zero =>
    intro i h _
    rw [fwrFrom, dif_neg (by omega)]
  | succ k ih =>
    intro i h h429
    rw [fwrFrom]
    by_cases hi : i < retries
    · rw [dif_pos hi]
      obtain ⟨r, body, hA, hst, hj⟩ := h429 i (Nat.le_refl i) hi
      rw [hA]
      simp only [hst, if_pos, hj]
      exact ih (i + 1) (by omega) (fun j hj2 hjr => h429 j (by omega) hjr)
    · rw [dif_neg hi]

/-- A 429 response whose body fails to parse. -/
def badJson429Response : Response :=
  { status := 429, retryAfterField := none,
    jsonResult := Except.error "Unexpected end of JSON input",
    headerRequestId := none, headerResponseTime := none }

/-- Attempt schedule whose every attempt is a 429 with an unparseable
body. -/
def badJsonAttempts : Nat → Outcome := fun _ => Outcome.responds badJson429Response

/-- Hand evaluation of the loop on `badJsonAttempts`: the third (last)
iteration rethrows the parse error. -/
lemma badJsonAttempts_eval2 :
    (fwrFrom badJsonAttempts 3 2).result
      = Except.error "Unexpected end of JSON input" := by
  rw [fwrFrom]
  simp [badJsonAttempts, badJson429Response]

/-- Hand evaluation: the second iteration retries and surfaces the
rethrown parse error of the third. -/
lemma badJsonAttempts_eval1 :
    (fwrFrom badJsonAttempts 3 1).result
      = Except.error "Unexpected end of JSON input" := by
  rw [fwrFrom]
  simpa [badJsonAttempts, badJson429Response] using badJsonAttempts_eval2

/-- Hand evaluation: the whole loop rejects with the parse error. -/
lemma badJsonAttempts_eval0 :
    (fetchWithRetry badJsonAttempts 3).result
      = Except.error "Unexpected end of JSON input" := by
  rw [fetchWithRetry, fwrFrom]
  simpa [badJsonAttempts, badJson429Response] using badJsonAttempts_eval1

/-- Counterexample to claim C8 as stated: every attempt receives an HTTP
429 response, but its body fails to parse, so `await response.json()`
rejects into the catch block; the loop does not exhaust to `undefined` -
the last attempt rethrows the parse error - and the caller sees a
CLIENT_ERROR `ApiError` carrying that parse message, not the
undefined-response `TypeError`. -/
theorem fetchWithRetry_429_badJson_counterexample :
    (fetchWithRetry badJsonAttempts 3).result
        = Except.error "Unexpected end of JSON input" ∧
    (fetchWithRetry badJsonAttempts 3).result ≠ Except.ok none ∧
    fetchApiData "cid" (fetchWithRetry badJsonAttempts 3).result
      = Except.error (clientApiError "Unexpected end of JSON input") ∧
    fetchApiData "cid" (fetchWithRetry badJsonAttempts 3).result
      ≠ Except.error (clientApiError undefinedJsonMsg) := by
  refine ⟨badJsonAttempts_eval0, ?_, ?_, ?_⟩ <;> rw [badJsonAttempts_eval0] <;> decide

/-- Claim C8 (amended): when all three attempts are rate limited with
parseable bodies, `fetchWithRetry` resolves to `undefined`;
`fetchApiData` then throws reading `.json()` off `undefined`, the catch
block wraps that `TypeError`, and the caller observes a CLIENT_ERROR
`ApiError`, not a rate-limit error. (A 429 body that fails to parse
instead rejects into the catch block and, on the last attempt, the
promise rejects with the parse error.) -/
theorem fetchWithRetry_all429_clientError (attempts : Nat → Outcome)
    (clientRequestId : String)
    (h : ∀ j, j < 3 →
      ∃ (r : Response) (body : ApiBody), attempts j = Outcome.responds r ∧
        r.status = 429 ∧ r.jsonResult = Except.ok body) :
    (fetchWithRetry attempts 3).result = Except.ok none ∧
    fetchApiData clientRequestId (fetchWithRetry attempts 3).result
      = Except.error (clientApiError undefinedJsonMsg) ∧
    (clientApiError undefinedJsonMsg).type = "CLIENT_ERROR" := by
  have hres : (fetchWithRetry attempts 3).result = Except.ok none :=
    fwrFrom_all429 attempts 3 3 0 (by omega) (fun j _ hj => h j hj)
  exact ⟨hres, by rw [hres]; rfl, rfl⟩

/-- A 429 response with a parseable body, used by the C8 witness. -/
def rateLimitedResponse : Response :=
  { status := 429, retryAfterField := some 50, jsonResult := Except.ok okBody,
    headerRequestId := none, headerResponseTime := none }

/-- Witness for the amended C8: every attempt responds 429 with a
parseable body. -/
theorem fetchWithRetry_all429_clientError_witness :
    (fetchWithRetry (fun _ => Outcome.responds rateLimitedResponse) 3).result
        = Except.ok none ∧
    fetchApiData "cid"
        (fetchWithRetry (fun _ => Outcome.responds rateLimitedResponse) 3).result
      = Except.error (clientApiError undefinedJsonMsg) ∧
    (clientApiError undefinedJsonMsg).type = "CLIENT_ERROR" :=
  fetchWithRetry_all429_clientError (fun _ => Outcome.responds rateLimitedResponse)
    "cid" (fun _ _ => ⟨rateLimitedResponse, okBody, rfl, rfl, rfl⟩)

/-- Claim C2: a parsed body with `success = false` rejects with an
`ApiError` carrying the type, code, details and retry_after of the error
object of the body, together with the X-Request-ID header; every other
failure (a rejected stage - timeout or network error - and a failed body
parse) rejects with a CLIENT_ERROR `ApiError` whose message is the
original message. Rejections are `ApiError` values by the return type of
the embedding. -/
theorem fetchApiData_classifies (clientRequestId : String)
    (stage1 : Except String (Option Response)) :
    (∀ (r : Response) (body : ApiBody),
      stage1 = Except.ok (some r) → r.jsonResult = Except.ok body →
      body.success = false →
        fetchApiData clientRequestId stage1
            = Except.error (mkApiError body.error r.headerRequestId) ∧
        (mkApiError body.error r.headerRequestId).type = body.error.type ∧
        (mkApiError body.error r.headerRequestId).code = body.error.code ∧
        (mkApiError body.error r.headerRequestId).details = body.error.details ∧
        (mkApiError body.error r.headerRequestId).retryAfter = body.error.retry_after ∧
        (mkApiError body.error r.headerRequestId).requestId = r.headerRequestId) ∧
    (∀ msg : String, stage1 = Except.error msg →
        fetchApiData clientRequestId stage1 = Except.error (clientApiError msg) ∧
        (clientApiError msg).type = "CLIENT_ERROR" ∧
        (clientApiError msg).message = msg) ∧
    (∀ (r : Response) (msg : String),
      stage1 = Except.ok (some r) → r.jsonResult = Except.error msg →
        fetchApiData clientRequestId stage1 = Except.error (clientApiError msg) ∧
        (clientApiError msg).type = "CLIENT_ERROR" ∧
        (clientApiError msg).message = msg) := by
  refine ⟨?_, ?_, ?_⟩
  · intro r body hs hj hsucc
    subst hs
    refine ⟨?_, rfl, rfl, rfl, rfl, rfl⟩
    simp [fetchApiData, handleApiResponse, hj, hsucc]
  · intro msg hs
    subst hs
    exact ⟨rfl, rfl, rfl⟩
  · intro r msg hs hj
    subst hs
    refine ⟨?_, rfl, rfl⟩
    simp [fetchApiData, handleApiResponse, hj]

/-- A failing body used by the C2 witness. -/
def failBody : ApiBody :=
  { success := false,
    error := { type := "RATE_LIMITED", message := "too many requests",
               code := some "429", details := "slow down",
               retry_after := some 30 },
    data := "" }

/-- A response with a failing body used by the C2 witness. -/
def failResponse : Response :=
  { status := 200, retryAfterField := none, jsonResult := Except.ok failBody,
    headerRequestId := some "srv-2", headerResponseTime := none }

/-- A response whose body fails to parse, used by the C2 witness. -/
def badJsonResponse : Response :=
  { status := 200, retryAfterField := none,
    jsonResult := Except.error "Unexpected token < in JSON",
    headerRequestId := none, headerResponseTime := none }

/-- Witness for C2 at three concrete stages: a failed body, a rejected
stage, and an unparseable body. -/
theorem fetchApiData_classifies_witness :
    fetchApiData "cid" (Except.ok (some failResponse))
        = Except.error (mkApiError failBody.error failResponse.headerRequestId) ∧
    fetchApiData "cid" (Except.error "Request timeout")
        = Except.error (clientApiError "Request timeout") ∧
    fetchApiData "cid" (Except.ok (some badJsonResponse))
        = Except.error (clientApiError "Unexpected token < in JSON") :=
  ⟨((fetchApiData_classifies "cid" (Except.ok (some failResponse))).1
      failResponse failBody rfl rfl rfl).1,
   ((fetchApiData_classifies "cid" (Except.error "Request timeout")).2.1
      "Request timeout" rfl).1,
   ((fetchApiData_classifies "cid" (Except.ok (some badJsonResponse))).2.2
      badJsonResponse "Unexpected token < in JSON" rfl rfl).1⟩

/-- `takeWhile isDigit` keeps an all-digit list whole. -/
lemma takeWhile_isDigit_eq_self (cs : List Char) (h : ∀ c ∈ cs, c.isDigit) :
    cs.takeWhile Char.isDigit = cs := by
  induction cs with
  | nil => rfl
  | cons a t ih =>
    rw [List.takeWhile_cons, if_pos (h a (by simp))]
    rw [ih (fun c hc => h c (by simp [hc]))]

/-- `parseInt` of a non-empty all-digit string is its decimal value. -/
lemma jsParseInt_digits (a : Char) (t : List Char)
    (h : ∀ c ∈ a :: t, c.isDigit) :
    jsParseInt (String.mk (a :: t)) = some ((digitsVal (a :: t) : Int)) := by
  have ha : a.isDigit := h a (by simp)
  have hnd : ¬ (a = '-') := by
    intro e; rw [e] at ha; exact absurd ha (by decide)
  have hnp : ¬ (a = '+') := by
    intro e; rw [e] at ha; exact absurd ha (by decide)
  show (if a = '-' then jsParseIntCore t (-1)
        else if a = '+' then jsParseIntCore t 1
        else jsParseIntCore (a :: t) 1) = some ((digitsVal (a :: t) : Int))
  rw [if_neg hnd, if_neg hnp]
  unfold jsParseIntCore
  rw [takeWhile_isDigit_eq_self _ h, if_neg (by simp)]
  simp

/-- Claim C9: the mock loader `parseDate` reads a BCE date from fixed
character positions - `parseInt` of characters 1-4 negated for the year,
of characters 6-7 minus one for the month, of characters 9-10 for the
day; on a well-formed `-YYYY-MM-DD` string with a four-digit year this is
the intended date built from the three digit groups, while the
shorter-year string `-27-01-16` is read from misaligned positions (year
-27, month `parseInt("-1") - 1 = -2`, day `NaN`). -/
theorem mockParseDate_spec :
    (∀ s : String, jsStartsWithDash s = true →
      MockLoader.parseDate s = MockParsedDate.fromYmd
        ⟨(jsParseInt (jsSubstring s 1 5)).map (fun y => -y),
         (jsParseInt (jsSubstring s 6 8)).map (fun m => m - 1),
         jsParseInt (jsSubstring s 9 11)⟩) ∧
    (∀ y1 y2 y3 y4 m1 m2 d1 d2 : Char,
      y1.isDigit → y2.isDigit → y3.isDigit → y4.isDigit →
      m1.isDigit → m2.isDigit → d1.isDigit → d2.isDigit →
      MockLoader.parseDate
          (String.mk ['-', y1, y2, y3, y4, '-', m1, m2, '-', d1, d2])
        = MockParsedDate.fromYmd
            ⟨some (-(digitsVal [y1, y2, y3, y4] : Int)),
             some ((digitsVal [m1, m2] : Int) - 1),
             some ((digitsVal [d1, d2] : Int))⟩) ∧
    MockLoader.parseDate "-27-01-16"
      = MockParsedDate.fromYmd ⟨some (-27), some (-2), none⟩ := by
  refine ⟨?_, ?_, by decide⟩
  · intro s hs
    unfold MockLoader.parseDate
    rw [if_pos hs]
  · intro y1 y2 y3 y4 m1 m2 d1 d2 h1 h2 h3 h4 h5 h6 h7 h8
    have hy : jsSubstring (String.mk ['-', y1, y2, y3, y4, '-', m1, m2, '-', d1, d2]) 1 5
        = String.mk [y1, y2, y3, y4] := rfl
    have hm : jsSubstring (String.mk ['-', y1, y2, y3, y4, '-', m1, m2, '-', d1, d2]) 6 8
        = String.mk [m1, m2] := rfl
    have hd : jsSubstring (String.mk ['-', y1, y2, y3, y4, '-', m1, m2, '-', d1, d2]) 9 11
        = String.mk [d1, d2] := rfl
    unfold MockLoader.parseDate
    rw [if_pos (show jsStartsWithDash
      (String.mk ['-', y1, y2, y3, y4, '-', m1, m2, '-', d1, d2]) = true from rfl)]
    rw [hy, hm, hd]
    rw [jsParseInt_digits y1 [y2, y3, y4] (by simp [h1, h2, h3, h4]),
        jsParseInt_digits m1 [m2] (by simp [h5, h6]),
        jsParseInt_digits d1 [d2] (by simp [h7, h8])]
    rfl

/-- Witness for C9 at the BCE start date of the pyramid event,
`-2600-01-01`, and the fixed-position reading of `-27-01-16`. -/
theorem mockParseDate_spec_witness :
    MockLoader.parseDate (String.mk ['-', '2', '6', '0', '0', '-', '0', '1', '-', '0', '1'])
      = MockParsedDate.fromYmd ⟨some (-2600), some 0, some 1⟩ ∧
    MockLoader.parseDate "-27-01-16" = MockParsedDate.fromYmd
      ⟨(jsParseInt (jsSubstring "-27-01-16" 1 5)).map (fun y => -y),
       (jsParseInt (jsSubstring "-27-01-16" 6 8)).map (fun m => m - 1),
       jsParseInt (jsSubstring "-27-01-16" 9 11)⟩ := by
  have h := mockParseDate_spec.2.1 '2' '6' '0' '0' '0' '1' '0' '1'
    (by decide) (by decide) (by decide) (by decide)
    (by decide) (by decide) (by decide) (by decide)
  exact ⟨h.trans (by decide), mockParseDate_spec.1 "-27-01-16" (by decide)⟩

/-- The title error is the required message exactly on an empty title. -/
lemma validateErrors_title (fd : FormData) :
    (validateErrors fd).title = (if fd.title = "" then some requiredMsg else none) := by
  unfold validateErrors
  split_ifs <;> rfl

/-- The period error is the required message exactly on an empty period. -/
lemma validateErrors_period (fd : FormData) :
    (validateErrors fd).period = (if fd.period = "" then some requiredMsg else none) := by
  unfold validateErrors
  split_ifs <;> rfl

/-- The start-date error is the required message exactly on an empty
start date. -/
lemma validateErrors_startDate (fd : FormData) :
    (validateErrors fd).startDate
      = (if fd.startDate = "" then some requiredMsg else none) := by
  unfold validateErrors
  split_ifs <;> rfl

/-- The end-date error: the invalid-date message when the end date
compares before the start date, else the required message when empty. -/
lemma validateErrors_endDate (fd : FormData) :
    (validateErrors fd).endDate
      = (if jsDateLt (parseIsoDate fd.endDate) (parseIsoDate fd.startDate) then
           some invalidDateMsg
         else if fd.endDate = "" then some requiredMsg else none) := by
  unfold validateErrors
  split_ifs <;> rfl

/-- Claim C6 (amended): `validate` succeeds exactly when the four fields
are non-empty and the end date does not compare before the start date
(Invalid Dates compare false); when `validate` fails, `onSubmit` is not
invoked and each failing field carries its error; when `validate`
succeeds and both date strings parse, `onSubmit` receives the form data
with the dates converted to ISO strings; when `validate` succeeds but a
date string does not parse, `toISOString` throws and `onSubmit` is not
invoked. -/
theorem eventForm_validate_submit (fd : FormData) :
    (validate fd = true ↔
      (fd.title ≠ "" ∧ fd.period ≠ "" ∧ fd.startDate ≠ "" ∧ fd.endDate ≠ "" ∧
        jsDateLt (parseIsoDate fd.endDate) (parseIsoDate fd.startDate) = false)) ∧
    (validate fd = false → handleSubmit fd = SubmitResult.notSubmitted) ∧
    (∀ s e, validate fd = true →
      parseIsoDate fd.startDate = some s → parseIsoDate fd.endDate = some e →
        handleSubmit fd = SubmitResult.submitted
          { fd with startDate := toISOString s, endDate := toISOString e }) ∧
    (validate fd = true →
      (parseIsoDate fd.startDate = none ∨ parseIsoDate fd.endDate = none) →
        handleSubmit fd = SubmitResult.threw) ∧
    (validateErrors fd).title = (if fd.title = "" then some requiredMsg else none) ∧
    (validateErrors fd).period = (if fd.period = "" then some requiredMsg else none) ∧
    (validateErrors fd).startDate
      = (if fd.startDate = "" then some requiredMsg else none) ∧
    (validateErrors fd).endDate
      = (if jsDateLt (parseIsoDate fd.endDate) (parseIsoDate fd.startDate) then
           some invalidDateMsg
         else if fd.endDate = "" then some requiredMsg else none) := by
  refine ⟨?_, ?_, ?_, ?_, validateErrors_title fd, validateErrors_period fd,
    validateErrors_startDate fd, validateErrors_endDate fd⟩
  · unfold validate FormErrors.isEmpty
    rw [validateErrors_title, validateErrors_period, validateErrors_startDate,
        validateErrors_endDate]
    split_ifs with h1 h2 h3 h4 h5 <;> simp_all
  · intro h
    simp [handleSubmit, h]
  · intro s e hval hs he
    simp [handleSubmit, hval, hs, he]
  · intro hval h
    rcases h with h | h
    · simp [handleSubmit, hval, h]
    · cases hs : parseIsoDate fd.startDate <;> simp [handleSubmit, hval, h, hs]

/-- Form whose end date is non-empty but not a parseable date. -/
def badDateForm : FormData :=
  { title := "a", period := "ancient", startDate := "2020-01-01", endDate := "x",
    locCoordinates := [], locZoomLevel := 3, description := "" }

/-- Counterexample to claim C6 as stated: `validate` returns true on
`badDateForm` (the Invalid Date comparison is false), yet `onSubmit` is
not invoked - `toISOString` throws on the unparseable end date. -/
theorem eventForm_claim_counterexample :
    validate badDateForm = true ∧
      (handleSubmit badDateForm).isSubmitted = false ∧
      handleSubmit badDateForm = SubmitResult.threw := by decide

/-- A form that validates and submits. -/
def goodForm : FormData :=
  { title := "t", period := "ancient", startDate := "2020-01-01",
    endDate := "2021-12-31", locCoordinates := [], locZoomLevel := 3,
    description := "" }

/-- A form with an empty title. -/
def noTitleForm : FormData :=
  { title := "", period := "ancient", startDate := "2020-01-01",
    endDate := "2021-12-31", locCoordinates := [], locZoomLevel := 3,
    description := "" }

/-- Witness for the amended C6: the good form submits with ISO dates, the
empty-title form does not submit, and the bad-date form throws. -/
theorem eventForm_validate_submit_witness :
    handleSubmit goodForm = SubmitResult.submitted
      { goodForm with startDate := toISOString (2020, 1, 1),
                      endDate := toISOString (2021, 12, 31) } ∧
    handleSubmit noTitleForm = SubmitResult.notSubmitted ∧
    handleSubmit badDateForm = SubmitResult.threw :=
  ⟨(eventForm_validate_submit goodForm).2.2.1 (2020, 1, 1) (2021, 12, 31)
      (by decide) (by decide) (by decide),
   (eventForm_validate_submit noTitleForm).2.1 (by decide),
   (eventForm_validate_submit badDateForm).2.2.2.1 (by decide) (Or.inr (by decide))⟩

end TimelineWH
